import Mathlib

/-!
Verification of the dementia generative-art repository: a shallow embedding
of the day-to-parameter degradation curves, the GLSL shader arithmetic
(blur, displacement map, displacement compositor), the ShaderCalendar
render-state machine and the DementiaSound audio-state machine, over ℚ.

Transcendental GLSL built-ins (`pow` with fractional exponents, the
`cos`/`sin` blur direction vectors) are abstracted as explicit function
parameters; everything else is transcribed literally from the source with
exact rational arithmetic.  Nullable JavaScript fields are modelled as
`Option`; a JavaScript `TypeError` aborting a method is modelled by the
method returning a success flag alongside the partially mutated state.
-/

/- ------------------------------------------------------------------ -/
/- Degradation curves (ShaderCalendar.getParams, DementiaSound.getSoundParams) -/
/- ------------------------------------------------------------------ -/

/-- Normalized day progress `t = (day - 1) / 30`, as in both curve functions. -/
def dayT (day : ℚ) : ℚ := (day - 1) / 30

/-- Cubic ease-in `t*t*t` from the source. -/
def easeInQ (t : ℚ) : ℚ := t * t * t

/-- Quadratic ease-out `1 - Math.pow(1 - t, 2)` from the source. -/
def easeOutQ (t : ℚ) : ℚ := 1 - (1 - t) ^ 2

/-- Smoothstep ease `t*t*(3 - 2*t)` from the source. -/
def easeMixQ (t : ℚ) : ℚ := t * t * (3 - 2 * t)

/-- The fifteen visual parameters returned by `ShaderCalendar.getParams`. -/
structure VisualParams where
  image_blur : ℚ
  uv_scale : ℚ
  depth_scale : ℚ
  rgb_scale : ℚ
  rgb_mix : ℚ
  src_weight : ℚ
  hard_level : ℚ
  hard_contrast : ℚ
  mask_level : ℚ
  mask_contrast : ℚ
  mask_weight : ℚ
  hard_weight : ℚ
  soft_weight : ℚ
  time_scale : ℚ
  map_blur : ℚ

/-- `ShaderCalendar.getParams(day)`: the visual degradation curve,
transcribed from the source. -/
def ShaderCalendar.getParams (day : ℚ) : VisualParams :=
  let t := dayT day
  let easeIn := easeInQ t
  let easeOut := easeOutQ t
  let easeMix := easeMixQ t
  { image_blur := 0.1 + easeIn * 31.9
    uv_scale := 0.5 + easeMix * 3.5
    depth_scale := 0.2 + easeIn * 3.8
    rgb_scale := 0.3 + easeMix * 2.2
    rgb_mix := 0.1 + easeOut * 0.85
    src_weight := 6.0 - easeOut * 3.5
    hard_level := 0.2 + easeMix * 2.5
    hard_contrast := 0.98 - easeOut * 0.45
    mask_level := 1.0 + easeOut * 2.0
    mask_contrast := 0.9 - easeOut * 0.35
    mask_weight := 0.8 - easeOut * 0.5
    hard_weight := 0.5 + easeIn * 7.5
    soft_weight := 0.3 + easeIn * 7.2
    time_scale := 0.005 + easeOut * 0.095
    map_blur := 2.0 + easeMix * 20.0 }

/-- The eleven audio parameters returned by `DementiaSound.getSoundParams`. -/
structure SoundParams where
  filterFrequency : ℚ
  filterQ : ℚ
  detuneAmount : ℚ
  detuneSpeed : ℚ
  reverbMix : ℚ
  reverbDecay : ℚ
  dryGain : ℚ
  melodyGain : ℚ
  vibratoDepth : ℚ
  vibratoSpeed : ℚ
  playbackRate : ℚ

/-- `DementiaSound.getSoundParams(day)`: the audio degradation curve,
transcribed from the source. -/
def DementiaSound.getSoundParams (day : ℚ) : SoundParams :=
  let t := dayT day
  let easeIn := easeInQ t
  let easeOut := easeOutQ t
  let easeMix := easeMixQ t
  { filterFrequency := 12000 - easeOut * 8000
    filterQ := 0.7
    detuneAmount := 0 + easeMix * 5
    detuneSpeed := 0.05 + easeOut * 0.15
    reverbMix := 0.1 + easeIn * 0.65
    reverbDecay := 0.5 + easeIn * 2.5
    dryGain := 1.0 - easeOut * 0.5
    melodyGain := 0.3 - easeOut * 0.1
    vibratoDepth := 0.3 + easeMix * 0.7
    vibratoSpeed := 1.5 + easeOut * 1.0
    playbackRate := 1.0 - easeIn * 0.2 }

/- ------------------------------------------------------------------ -/
/- GLSL value types -/
/- ------------------------------------------------------------------ -/

/-- A 4-channel pixel (GLSL `vec4` holding RGBA), represented as a
function from channel index to rational value so that pointwise
`AddCommMonoid` structure is available for the blur summation. -/
abbrev Px := Fin 4 → ℚ

/-- Build a pixel from its four channels. -/
def Px.mk4 (r g b a : ℚ) : Px := ![r, g, b, a]

/-- Red channel (GLSL `.x` / `.r`). -/
def Px.r (p : Px) : ℚ := p 0

/-- Green channel (GLSL `.y` / `.g`). -/
def Px.g (p : Px) : ℚ := p 1

/-- Blue channel (GLSL `.z` / `.b`). -/
def Px.b (p : Px) : ℚ := p 2

/-- Alpha channel (GLSL `.w` / `.a`). -/
def Px.a (p : Px) : ℚ := p 3

/-- Componentwise division of a pixel by a scalar (GLSL `vec4 / float`). -/
def Px.divC (p : Px) (k : ℚ) : Px := fun i => p i / k

/-- GLSL `mix(x, y, t)` on vec4, componentwise `x*(1-t) + y*t`. -/
def pxMix (x y : Px) (t : ℚ) : Px := fun i => x i * (1 - t) + y i * t

/-- A field (texture / framebuffer): pixel contents as a total function of
the sampling coordinate, `texture2D tex uv = tex uv`. -/
abbrev Tex := (ℚ × ℚ) → Px

/- ------------------------------------------------------------------ -/
/- blurShader's blur function (also embedded in mapShader and displaceShader) -/
/- ------------------------------------------------------------------ -/

/-- The shared GLSL `blur` function: center sample plus 16 directions × 3
radial steps, averaged over 49 samples, sampling radius `size / res`.
The direction unit vectors `(cos angle, sin angle)` are transcendental, so
they are abstracted as the explicit argument `dirs`; everything else is
transcribed from the source. -/
def blurF (size : ℚ) (dirs : Fin 16 → ℚ × ℚ) (tex : Tex) (uv res : ℚ × ℚ) : Px :=
  Px.divC
    (tex uv +
      ∑ d : Fin 16, ∑ i : Fin 3,
        tex (uv.1 + (dirs d).1 * (size / res.1) * (((i : ℕ) + 1 : ℚ) / 3),
             uv.2 + (dirs d).2 * (size / res.2) * (((i : ℕ) + 1 : ℚ) / 3)))
    49

/- ------------------------------------------------------------------ -/
/- displaceShader -/
/- ------------------------------------------------------------------ -/

/-- The fragment computation of `displaceShader`: quantized hard offset,
smooth soft offset, hard-mask blend of the two displaced working-field
samples, then source-mask blend with the clean source.  Transcribed from
the source (`source` = clean source field, `image` = working field,
`map` = displacement map field). -/
def displacePixel (source image map : Tex) (res : ℚ × ℚ)
    (hard_weight soft_weight blur_size : ℚ) (dirs : Fin 16 → ℚ × ℚ)
    (uv : ℚ × ℚ) : Px :=
  let source_color := source uv
  let map_color := map uv
  let map_blur := blurF blur_size dirs map uv res
  let dsp_hard0 : ℚ × ℚ :=
    ((map_blur.r - 0.5) * hard_weight * 2 / res.1,
     (map_blur.g - 0.5) * hard_weight * 2 / res.2)
  let dsp_hard : ℚ × ℚ :=
    ((⌊dsp_hard0.1 * res.1 + 0.5⌋ : ℚ) / res.1,
     (⌊dsp_hard0.2 * res.2 + 0.5⌋ : ℚ) / res.2)
  let dsp_soft : ℚ × ℚ :=
    ((map_blur.r - 0.5) * soft_weight * 2 / res.1,
     (map_blur.g - 0.5) * soft_weight * 2 / res.2)
  let hard_mask := map_blur.b
  let source_mask := map_color.a
  let displaced_hard := image (uv.1 + dsp_hard.1, uv.2 + dsp_hard.2)
  let displaced_soft := image (uv.1 + dsp_soft.1, uv.2 + dsp_soft.2)
  let displaced := pxMix displaced_hard displaced_soft hard_mask
  pxMix displaced source_color (1 - source_mask)

/- ------------------------------------------------------------------ -/
/- GLSL vec3 / vec4 arithmetic for the simplex noise in mapShader -/
/- ------------------------------------------------------------------ -/

/-- GLSL `vec3` over ℚ. -/
structure V3 where
  x : ℚ
  y : ℚ
  z : ℚ

/-- GLSL `vec4` over ℚ. -/
structure V4 where
  x : ℚ
  y : ℚ
  z : ℚ
  w : ℚ

instance : Add V3 := ⟨fun u v => ⟨u.x + v.x, u.y + v.y, u.z + v.z⟩⟩

instance : Sub V3 := ⟨fun u v => ⟨u.x - v.x, u.y - v.y, u.z - v.z⟩⟩

instance : Mul V3 := ⟨fun u v => ⟨u.x * v.x, u.y * v.y, u.z * v.z⟩⟩

instance : Add V4 := ⟨fun u v => ⟨u.x + v.x, u.y + v.y, u.z + v.z, u.w + v.w⟩⟩

instance : Sub V4 := ⟨fun u v => ⟨u.x - v.x, u.y - v.y, u.z - v.z, u.w - v.w⟩⟩

instance : Mul V4 := ⟨fun u v => ⟨u.x * v.x, u.y * v.y, u.z * v.z, u.w * v.w⟩⟩

instance : Neg V4 := ⟨fun u => ⟨-u.x, -u.y, -u.z, -u.w⟩⟩

/-- Broadcast scalar addition `vec3 + float`. -/
def V3.addS (u : V3) (s : ℚ) : V3 := ⟨u.x + s, u.y + s, u.z + s⟩

/-- Scalar multiplication `vec3 * float`. -/
def V3.mulS (u : V3) (s : ℚ) : V3 := ⟨u.x * s, u.y * s, u.z * s⟩

/-- Broadcast scalar addition `vec4 + float`. -/
def V4.addS (u : V4) (s : ℚ) : V4 := ⟨u.x + s, u.y + s, u.z + s, u.w + s⟩

/-- Scalar multiplication `vec4 * float`. -/
def V4.mulS (u : V4) (s : ℚ) : V4 := ⟨u.x * s, u.y * s, u.z * s, u.w * s⟩

/-- GLSL `dot` on vec3. -/
def dot3 (u v : V3) : ℚ := u.x * v.x + u.y * v.y + u.z * v.z

/-- GLSL `dot` on vec4. -/
def dot4 (u v : V4) : ℚ := u.x * v.x + u.y * v.y + u.z * v.z + u.w * v.w

/-- GLSL `floor` on a float, as a rational. -/
def floorQ (q : ℚ) : ℚ := (⌊q⌋ : ℚ)

/-- GLSL `floor` on vec3, componentwise. -/
def floor3 (u : V3) : V3 := ⟨floorQ u.x, floorQ u.y, floorQ u.z⟩

/-- GLSL `floor` on vec4, componentwise. -/
def floor4 (u : V4) : V4 := ⟨floorQ u.x, floorQ u.y, floorQ u.z, floorQ u.w⟩

/-- GLSL `step(edge, x)`: `0` when `x < edge`, else `1`. -/
def stepQ (edge xv : ℚ) : ℚ := if xv < edge then 0 else 1

/-- GLSL `step` on vec3, componentwise. -/
def step3 (edge xv : V3) : V3 := ⟨stepQ edge.x xv.x, stepQ edge.y xv.y, stepQ edge.z xv.z⟩

/-- GLSL `step` on vec4, componentwise. -/
def step4 (edge xv : V4) : V4 :=
  ⟨stepQ edge.x xv.x, stepQ edge.y xv.y, stepQ edge.z xv.z, stepQ edge.w xv.w⟩

/-- GLSL `min` on vec3, componentwise. -/
def min3 (u v : V3) : V3 := ⟨min u.x v.x, min u.y v.y, min u.z v.z⟩

/-- GLSL `max` on vec3, componentwise. -/
def max3 (u v : V3) : V3 := ⟨max u.x v.x, max u.y v.y, max u.z v.z⟩

/-- GLSL `max` on vec4, componentwise. -/
def max4 (u v : V4) : V4 := ⟨max u.x v.x, max u.y v.y, max u.z v.z, max u.w v.w⟩

/-- GLSL `abs` on vec4, componentwise. -/
def abs4 (u : V4) : V4 := ⟨|u.x|, |u.y|, |u.z|, |u.w|⟩

/-- GLSL `mix(x, y, t)` on floats. -/
def glslMixQ (x y t : ℚ) : ℚ := x * (1 - t) + y * t

/-- GLSL `mod(x, y) = x - y*floor(x/y)`. -/
def glslMod (x y : ℚ) : ℚ := x - y * floorQ (x / y)

/-- GLSL `smoothstep(e0, e1, x)`: clamp then cubic Hermite. -/
def smoothstepQ (e0 e1 xv : ℚ) : ℚ :=
  let t := min (max ((xv - e0) / (e1 - e0)) 0) 1
  t * t * (3 - 2 * t)

/- ------------------------------------------------------------------ -/
/- ns_simplex and the mapShader fragment computation -/
/- ------------------------------------------------------------------ -/

/-- `ns_simplex_mod289` on vec3: `x - floor(x * (1/289)) * 289`. -/
def ns_simplex_mod289_3 (xv : V3) : V3 := xv - (floor3 (xv.mulS (1 / 289))).mulS 289

/-- `ns_simplex_mod289` on vec4. -/
def ns_simplex_mod289_4 (xv : V4) : V4 := xv - (floor4 (xv.mulS (1 / 289))).mulS 289

/-- `ns_simplex_permute(x) = mod289(((x*34)+10)*x)`. -/
def ns_simplex_permute (xv : V4) : V4 := ns_simplex_mod289_4 (((xv.mulS 34).addS 10) * xv)

/-- `ns_simplex_taylorInvSqrt(r) = 1.79284291400159 - 0.85373472095314 * r`. -/
def ns_simplex_taylorInvSqrt (r : V4) : V4 :=
  (V4.mk 1.79284291400159 1.79284291400159 1.79284291400159 1.79284291400159) - r.mulS 0.85373472095314

/-- The 3-D simplex noise `ns_simplex` from mapShader, transcribed line by
line; every operation (floor, step, min, max, abs, polynomials) is exact
rational arithmetic. -/
def ns_simplex (v : V3) : ℚ :=
  let C : ℚ × ℚ := (1 / 6, 1 / 3)
  let D : V4 := ⟨0, 0.5, 1, 2⟩
  let i0 := floor3 (v.addS (dot3 v ⟨C.2, C.2, C.2⟩))
  let x0 := (v - i0).addS (dot3 i0 ⟨C.1, C.1, C.1⟩)
  let g := step3 ⟨x0.y, x0.z, x0.x⟩ ⟨x0.x, x0.y, x0.z⟩
  let l := (V3.mk 1 1 1) - g
  let i1 := min3 ⟨g.x, g.y, g.z⟩ ⟨l.z, l.x, l.y⟩
  let i2 := max3 ⟨g.x, g.y, g.z⟩ ⟨l.z, l.x, l.y⟩
  let x1 := (x0 - i1).addS C.1
  let x2 := (x0 - i2).addS C.2
  let x3 := x0 - ⟨D.y, D.y, D.y⟩
  let i := ns_simplex_mod289_3 i0
  let p := ns_simplex_permute
    ((((ns_simplex_permute
        ((((ns_simplex_permute ((V4.mk 0 i1.z i2.z 1).addS i.z)).addS i.y)
          + V4.mk 0 i1.y i2.y 1))).addS i.x)
      + V4.mk 0 i1.x i2.x 1))
  let n_ : ℚ := 0.142857142857
  let ns : V3 := (V3.mk D.w D.y D.z).mulS n_ - ⟨D.x, D.z, D.x⟩
  let j := p - (floor4 ((p.mulS ns.z).mulS ns.z)).mulS 49
  let x_ := floor4 (j.mulS ns.z)
  let y_ := floor4 (j - x_.mulS 7)
  let xx := (x_.mulS ns.x).addS ns.y
  let yy := (y_.mulS ns.x).addS ns.y
  let h := (V4.mk 1 1 1 1) - abs4 xx - abs4 yy
  let b0 := V4.mk xx.x xx.y yy.x yy.y
  let b1 := V4.mk xx.z xx.w yy.z yy.w
  let s0 := ((floor4 b0).mulS 2).addS 1
  let s1 := ((floor4 b1).mulS 2).addS 1
  let sh := -(step4 h ⟨0, 0, 0, 0⟩)
  let a0 := V4.mk b0.x b0.z b0.y b0.w + (V4.mk s0.x s0.z s0.y s0.w) * (V4.mk sh.x sh.x sh.y sh.y)
  let a1 := V4.mk b1.x b1.z b1.y b1.w + (V4.mk s1.x s1.z s1.y s1.w) * (V4.mk sh.z sh.z sh.w sh.w)
  let p0 := V3.mk a0.x a0.y h.x
  let p1 := V3.mk a0.z a0.w h.y
  let p2 := V3.mk a1.x a1.y h.z
  let p3 := V3.mk a1.z a1.w h.w
  let norm := ns_simplex_taylorInvSqrt ⟨dot3 p0 p0, dot3 p1 p1, dot3 p2 p2, dot3 p3 p3⟩
  let p0 := p0.mulS norm.x
  let p1 := p1.mulS norm.y
  let p2 := p2.mulS norm.z
  let p3 := p3.mulS norm.w
  let m := max4 ((V4.mk 0.5 0.5 0.5 0.5) - ⟨dot3 x0 x0, dot3 x1 x1, dot3 x2 x2, dot3 x3 x3⟩) ⟨0, 0, 0, 0⟩
  let m := m * m
  105 * dot4 (m * m) ⟨dot3 p0 x0, dot3 p1 x1, dot3 p2 x2, dot3 p3 x3⟩

/-- `uv_norm` from the shaders: aspect-ratio letterboxing of `uv`. -/
def uvNorm (uv res texRes : ℚ × ℚ) : ℚ × ℚ :=
  let texAspect := texRes.1 / texRes.2
  let resAspect := res.1 / res.2
  if texAspect > resAspect then
    ((uv.1 - 0.5) * (resAspect / texAspect) + 0.5, uv.2)
  else
    (uv.1, (uv.2 - 0.5) * (texAspect / resAspect) + 0.5)

/-- Luminance pseudo-depth `dot(rgb, vec3(0.299, 0.587, 0.114))`. -/
def luminance (p : Px) : ℚ := p.r * 0.299 + p.g * 0.587 + p.b * 0.114

/-- The fragment computation of `mapShader`, transcribed from the source.
`powF` abstracts GLSL `pow` (transcendental for fractional exponents) and
`dirs` abstracts the blur direction vectors; `source` is the clean source
field and `image` the working (feedback) field. -/
def mapPixel (powF : ℚ → ℚ → ℚ) (dirs : Fin 16 → ℚ × ℚ) (source image : Tex)
    (time : ℚ) (uv_scale : V3) (map_weight src_weight rgb_mix hard_level hard_contrast
    mask_level mask_contrast mask_weight : ℚ) (res : ℚ × ℚ)
    (blur_size time_scale : ℚ) (uv : ℚ × ℚ) : Px :=
  let uvn := uvNorm uv res (2048, 2048)
  let source_color := source uv
  let image_color := blurF blur_size dirs image uv res
  let t := glslMod time 111111
  let t2 := glslMod (time * time_scale) 111111
  let depth := luminance source_color
  let nmap := V3.mk uvn.1 uvn.2 depth * uv_scale + V3.mk 0 0 t2
  let rgb_map := (V3.mk image_color.r image_color.g image_color.b).mulS map_weight + V3.mk 0 0 t2
  let nmap_mask := nmap + (V3.mk source_color.r source_color.g source_color.b).mulS src_weight
  let nmap_source0 := V3.mk uvn.1 uvn.2 depth
    + (V3.mk source_color.r source_color.g source_color.b).mulS 0.5 + V3.mk 0 0 (t * 0.05)
  let nmap_source1 := V3.mk
    (ns_simplex (nmap_source0 + V3.mk 69 0 0))
    (ns_simplex (nmap_source0 + V3.mk 69 10 0))
    (ns_simplex (nmap_source0 + V3.mk 69 20 0))
  let nmap_source := nmap_source1 + V3.mk uvn.1 uvn.2 depth
  let displace_x_1 := ns_simplex (nmap + V3.mk 0 0 0)
  let displace_y_1 := ns_simplex (nmap + V3.mk 0 11 111.1)
  let displace_x_2 := ns_simplex (rgb_map + V3.mk 0 44 444)
  let displace_y_2 := ns_simplex (rgb_map + V3.mk 0 55 555.1)
  let displace_x := glslMixQ displace_x_1 displace_x_2 rgb_mix
  let displace_y := glslMixQ displace_y_1 displace_y_2 rgb_mix
  let hard_mask0 := ns_simplex (nmap_mask + V3.mk 0 22 222.2)
  let source_mask0 := ns_simplex (nmap_source + V3.mk 0 33 333.3)
  let dx := displace_x * 0.5 + 0.5
  let dy := displace_y * 0.5 + 0.5
  let hm1 := hard_mask0 * 0.5 + 0.5
  let hm2 := powF hm1 (powF 2 hard_level)
  let hm := smoothstepQ (hard_contrast * 0.5) (1 - hard_contrast * 0.5) hm2
  let sm1 := source_mask0 * 0.5 + 0.5
  let sm2 := powF sm1 (powF 2 mask_level)
  let sm3 := smoothstepQ (mask_contrast * 0.5) (1 - mask_contrast * 0.5) sm2
  let sm4 := glslMixQ sm3 1 0
  let sm := glslMixQ sm4 0 (1 - mask_weight)
  Px.mk4 dx dy hm (1 - sm)

/- ------------------------------------------------------------------ -/
/- ShaderCalendar state machine -/
/- ------------------------------------------------------------------ -/

/-- The `blitShader` fragment computation: optional aspect fit, optional
nearest-neighbour snap `floor(uv*tex_res+0.5)/tex_res`, then a plain
texture sample. -/
def blitSample (tex : Tex) (texRes res : ℚ × ℚ) (fit nearest : Bool) (uv : ℚ × ℚ) : Px :=
  let uv1 := if fit then uvNorm uv res texRes else uv
  let uv2 := if nearest then
      ((⌊uv1.1 * texRes.1 + 0.5⌋ : ℚ) / texRes.1, (⌊uv1.2 * texRes.2 + 0.5⌋ : ℚ) / texRes.2)
    else uv1
  tex uv2

/-- A decoded image: pixel data, dimensions, and a source-URL identifier
(used by `loadImage`'s `img.src === this.lastImageSrc` comparison). -/
structure GImage where
  pix : Tex
  width : ℚ
  height : ℚ
  src : ℕ

/-- The CPU-visible state of a `ShaderCalendar` instance: the uploaded
source texture (`sourceTexture`, `none` while null), the last image URL,
the current image and day, the time accumulator, the canvas size and the
four framebuffers.  `fboImage` is the working (feedback) field and
`fboSource` the clean source field. -/
structure ShaderState where
  sourceTexData : Option Tex
  lastImageSrc : Option ℕ
  currentImage : Option GImage
  currentDay : ℚ
  time : ℚ
  width : ℚ
  height : ℚ
  fboSource : Tex
  fboImage : Tex
  fboMap : Tex
  fboDisplace : Tex
  seed : ℚ

/-- An all-zero field: the contents of a freshly created framebuffer
texture (`texImage2D` with null data). -/
def blankTex : Tex := fun _ => Px.mk4 0 0 0 0

/-- State after the `ShaderCalendar` constructor (WebGL context acquired):
no image yet, day 1, time 0, blank framebuffers, random seed abstracted as
a parameter. -/
def ShaderCalendar.newState (seed : ℚ) : ShaderState :=
  { sourceTexData := none
    lastImageSrc := none
    currentImage := none
    currentDay := 1
    time := 0
    width := 0
    height := 0
    fboSource := blankTex
    fboImage := blankTex
    fboMap := blankTex
    fboDisplace := blankTex
    seed := seed }

/-- `ShaderCalendar.createTexture(img)`: upload the image as the source
texture, set the canvas to `min(width, height)` square, and reallocate all
framebuffers (blank) at that size. -/
def ShaderCalendar.createTexture (st : ShaderState) (img : GImage) : ShaderState :=
  let size := min img.width img.height
  { st with
    sourceTexData := some img.pix
    width := size
    height := size
    fboSource := blankTex
    fboImage := blankTex
    fboMap := blankTex
    fboDisplace := blankTex }

/-- The source's `ShaderCalendar.initialize()` (renamed here): reset the time accumulator to 0, blit
the source texture into the source framebuffer, then blit the source
framebuffer into the image (working) framebuffer, resetting the feedback
loop.  A null `sourceTexture` samples as black. -/
def ShaderCalendar.initializeState (st : ShaderState) : ShaderState :=
  let st1 := { st with time := 0 }
  let imgRes : ℚ × ℚ := match st1.currentImage with
    | some img => (img.width, img.height)
    | none => (0, 0)
  let srcField : Tex := fun uv =>
    blitSample (st1.sourceTexData.getD blankTex) imgRes (st1.width, st1.height) false false uv
  let st2 := { st1 with fboSource := srcField }
  let imgField : Tex := fun uv =>
    blitSample st2.fboSource (st2.width, st2.height) (st2.width, st2.height) false false uv
  { st2 with fboImage := imgField }

/-- The success path of `ShaderCalendar.loadImage(src, day)` (the image
decoded): record day and image, reinitialize — reusing the uploaded
texture when the same image URL arrives with a changed day, otherwise
re-uploading via `createTexture` — and remember the image URL. -/
def ShaderCalendar.loadImage (st : ShaderState) (img : GImage) (day : ℚ) : ShaderState :=
  let dayChanged := st.currentDay ≠ day
  let st1 := { st with currentDay := day, currentImage := some img }
  let st2 :=
    if st1.sourceTexData.isSome ∧ st1.lastImageSrc = some img.src ∧ dayChanged then
      ShaderCalendar.initializeState st1
    else
      ShaderCalendar.initializeState (ShaderCalendar.createTexture st1 img)
  { st2 with lastImageSrc := some img.src }

/-- `ShaderCalendar.setDay(day)`: assigns `currentDay` and nothing else. -/
def ShaderCalendar.setDay (st : ShaderState) (day : ℚ) : ShaderState :=
  { st with currentDay := day }

/-- `ShaderCalendar.render()`: generate the displacement map from the
current parameters, apply the displacement, copy the result back into the
working framebuffer (the feedback step), and advance time by `1/60`.
Drawing to the screen does not change the state.  `powF`/`dirs` abstract
the transcendental GLSL built-ins. -/
def ShaderCalendar.render (powF : ℚ → ℚ → ℚ) (dirs : Fin 16 → ℚ × ℚ)
    (st : ShaderState) : ShaderState :=
  match st.sourceTexData with
  | none => st
  | some _ =>
    let params := ShaderCalendar.getParams st.currentDay
    let res : ℚ × ℚ := (st.width, st.height)
    let mapField : Tex := fun uv =>
      mapPixel powF dirs st.fboSource st.fboImage (st.time + st.seed * 1000)
        ⟨params.uv_scale, params.uv_scale, params.depth_scale⟩
        params.rgb_scale params.src_weight params.rgb_mix params.hard_level
        params.hard_contrast params.mask_level params.mask_contrast params.mask_weight
        res params.image_blur params.time_scale uv
    let displaceField : Tex := fun uv =>
      displacePixel st.fboSource st.fboImage mapField res
        params.hard_weight params.soft_weight params.map_blur dirs uv
    let imgField : Tex := fun uv =>
      blitSample displaceField res res false false uv
    { st with
      fboMap := mapField
      fboDisplace := displaceField
      fboImage := imgField
      time := st.time + 1 / 60 }

/- ------------------------------------------------------------------ -/
/- DementiaSound state machine -/
/- ------------------------------------------------------------------ -/

/-- One scheduled Web Audio linear ramp: from value `v0` at time `t0` to
value `v1` at time `t1`. -/
structure RampEv where
  t0 : ℚ
  v0 : ℚ
  t1 : ℚ
  v1 : ℚ

/-- A Web Audio `AudioParam`: its base (last directly assigned) value and
the most recently scheduled linear ramp, if any. -/
structure AParam where
  base : ℚ
  ev : Option RampEv

/-- The value of an `AudioParam` at audio-clock time `t`: linear
interpolation inside a scheduled ramp, the ramp endpoints outside it, the
base value when no ramp is scheduled (Web Audio
`linearRampToValueAtTime` semantics). -/
def AParam.valueAt (p : AParam) (t : ℚ) : ℚ :=
  match p.ev with
  | none => p.base
  | some e =>
    if t ≤ e.t0 then e.v0
    else if t < e.t1 then e.v0 + (e.v1 - e.v0) * (t - e.t0) / (e.t1 - e.t0)
    else e.v1

/-- `param.linearRampToValueAtTime(target, endTime)` issued at time `now`:
ramp from the current value at `now` to `target` at `endTime`. -/
def AParam.linearRampTo (p : AParam) (target endTime now : ℚ) : AParam :=
  { base := p.base, ev := some ⟨now, p.valueAt now, endTime, target⟩ }

/-- An `AudioParam` holding a plain value with no ramp. -/
def AParam.const (v : ℚ) : AParam := ⟨v, none⟩

/-- One entry of `this.oscillators`: the audio params touched by
`start`/`updateDay`/`stop` and the stored base frequency.  The random
`detuneOffset` phase is omitted (it only feeds the detune LFO drift). -/
structure Osc where
  filterFreq : AParam
  filterQ : AParam
  gain : AParam
  reverbGain : AParam
  lfoFreq : AParam
  lfoGain : AParam
  baseFreq : ℚ

instance : Inhabited Osc :=
  ⟨⟨AParam.const 0, AParam.const 0, AParam.const 0, AParam.const 0,
    AParam.const 0, AParam.const 0, 0⟩⟩

/-- The oscillator of `this.oscillators` at index `i` (default-filled out
of range, used only within bounds). -/
def oscAt (l : List Osc) (i : ℕ) : Osc := l.getD i default

/-- The state of a `DementiaSound` instance.  Nullable JavaScript fields
(`audioContext`, `masterGain`, `reverbGain`, `noiseNode`) are `Option`s;
`baseFrequencies` is `Option (List ℚ)` because the property is read by
`updateDay` but never assigned anywhere, so it is `undefined` (`none`) —
reading `.length` from it throws a `TypeError`. -/
structure SoundState where
  audioCtxInit : Bool
  masterGain : Option ℚ
  reverbGainParam : Option AParam
  noiseNode : Option Unit
  oscillators : List Osc
  isPlaying : Bool
  currentDay : ℚ
  melodyNotes : List (ℚ × ℚ)
  padFrequencies : List ℚ
  baseFrequencies : Option (List ℚ)

/-- The `DementiaSound` constructor: no audio context yet, not playing,
day 1, the 8-note melody and the 3 pad frequencies; `baseFrequencies` is
never assigned. -/
def DementiaSound.initialState : SoundState :=
  { audioCtxInit := false
    masterGain := none
    reverbGainParam := none
    noiseNode := none
    oscillators := []
    isPlaying := false
    currentDay := 1
    melodyNotes := [(261.63, 2.0), (329.63, 1.5), (392.00, 1.5), (329.63, 1.0),
                    (293.66, 2.0), (261.63, 2.0), (220.00, 3.0), (261.63, 2.5)]
    padFrequencies := [130.81, 164.81, 196.00]
    baseFrequencies := none }

/-- The success path of `DementiaSound.init()`: create the audio context,
set the master gain to `0.2`, create the convolution reverb whose output
gain defaults to `1`.  A second call is a no-op. -/
def DementiaSound.init (st : SoundState) : SoundState :=
  if st.audioCtxInit then st
  else { st with
    audioCtxInit := true
    masterGain := some 0.2
    reverbGainParam := some (AParam.const 1) }

/-- `DementiaSound.start(day)` when not already playing (the
already-playing branch delegates to `updateDay`): set day and playing,
and create one pad voice per pad frequency — filter at the day's cutoff
and Q, gain ramping from 0 to `(0.06/padFrequencies.length) * dryGain`
over 3 seconds, reverb send at `reverbMix * 0.7`, vibrato LFO at half
speed and depth.  Melody notes are ephemeral voices outside
`this.oscillators` and are not modelled. -/
def DementiaSound.startFresh (st : SoundState) (day now : ℚ) : SoundState :=
  if ¬st.audioCtxInit then st
  else
    let p := DementiaSound.getSoundParams day
    let volume := 0.06 / (st.padFrequencies.length : ℚ)
    let oscs := st.padFrequencies.map (fun freq =>
      { filterFreq := AParam.const p.filterFrequency
        filterQ := AParam.const p.filterQ
        gain := (AParam.const 0).linearRampTo (volume * p.dryGain) (now + 3) now
        reverbGain := AParam.const (p.reverbMix * 0.7)
        lfoFreq := AParam.const (p.vibratoSpeed * 0.5)
        lfoGain := AParam.const (p.vibratoDepth * 0.5)
        baseFreq := freq })
    { st with
      currentDay := day
      isPlaying := true
      oscillators := st.oscillators ++ oscs }

/-- The per-oscillator body of `updateDay`'s `forEach`: ramp the filter
frequency and Q to the new day's values over the 1-second transition,
then compute `volume = 0.15 / this.baseFrequencies.length` — which throws
a `TypeError` when `baseFrequencies` is `undefined`, so the gain, reverb
and vibrato ramps of this and all later oscillators never run.  Returns
the (possibly partially) updated oscillator and a success flag. -/
def DementiaSound.updateDayStep (p : SoundParams) (now : ℚ) (bf : Option (List ℚ))
    (o : Osc) : Osc × Bool :=
  let o1 := { o with filterFreq := o.filterFreq.linearRampTo p.filterFrequency (now + 1) now }
  let o2 := { o1 with filterQ := o1.filterQ.linearRampTo p.filterQ (now + 1) now }
  match bf with
  | none => (o2, false)
  | some l =>
    let volume := 0.15 / (l.length : ℚ)
    let o3 := { o2 with gain := o2.gain.linearRampTo (volume * p.dryGain) (now + 1) now }
    let o4 := { o3 with reverbGain := o3.reverbGain.linearRampTo p.reverbMix (now + 1) now }
    let o5 := { o4 with lfoFreq := o4.lfoFreq.linearRampTo p.vibratoSpeed (now + 1) now }
    let o6 := { o5 with lfoGain := o5.lfoGain.linearRampTo p.vibratoDepth (now + 1) now }
    (o6, true)

/-- Sequential processing of `this.oscillators.forEach` in `updateDay`: an
exception thrown in the callback aborts the iteration, leaving the
remaining oscillators untouched. -/
def DementiaSound.updateDayList (p : SoundParams) (now : ℚ) (bf : Option (List ℚ)) :
    List Osc → List Osc × Bool
  | [] => ([], true)
  | o :: rest =>
    let r := DementiaSound.updateDayStep p now bf o
    if r.2 then
      let rs := DementiaSound.updateDayList p now bf rest
      (r.1 :: rs.1, rs.2)
    else
      (r.1 :: rest, false)

/-- `DementiaSound.updateDay(day)`: a no-op unless playing with a changed
day; otherwise records the new day and processes every oscillator
(aborting on the `baseFrequencies` `TypeError`), then — only when no
exception occurred — ramps the reverb output gain toward `reverbDecay`.
The `Bool` is `false` when the call raised. -/
def DementiaSound.updateDay (st : SoundState) (day now : ℚ) : SoundState × Bool :=
  if ¬st.isPlaying ∨ day = st.currentDay then (st, true)
  else
    let p := DementiaSound.getSoundParams day
    let r := DementiaSound.updateDayList p now st.baseFrequencies st.oscillators
    let st1 := { st with currentDay := day, oscillators := r.1 }
    if r.2 then
      ({ st1 with
          reverbGainParam := st1.reverbGainParam.map
            (fun rp => rp.linearRampTo p.reverbDecay (now + 1) now) }, true)
    else (st1, false)

/-- `DementiaSound.start(day)`: update the running sound when already
playing, otherwise start fresh (a missing audio context aborts).  The
`Bool` is the no-exception flag from `updateDay`. -/
def DementiaSound.start (st : SoundState) (day now : ℚ) : SoundState × Bool :=
  if st.isPlaying then DementiaSound.updateDay st day now
  else (DementiaSound.startFresh st day now, true)

/-- `DementiaSound.stop()`: fade out, discard all voices, stop playing. -/
def DementiaSound.stop (st : SoundState) : SoundState :=
  if ¬st.isPlaying then st
  else { st with oscillators := [], isPlaying := false }

/-- `DementiaSound.setVolume(v)`: when the master gain exists, assign it
`Math.max(0, Math.min(1, v))`; otherwise do nothing. -/
def DementiaSound.setVolume (st : SoundState) (volume : ℚ) : SoundState :=
  match st.masterGain with
  | none => st
  | some _ => { st with masterGain := some (max 0 (min 1 volume)) }

/-- One public `DementiaSound` method call, as a step relation on states. -/
inductive DementiaSound.Step : SoundState → SoundState → Prop
  | init (s : SoundState) : DementiaSound.Step s (DementiaSound.init s)
  | start (s : SoundState) (day now : ℚ) :
      DementiaSound.Step s (DementiaSound.start s day now).1
  | updateDay (s : SoundState) (day now : ℚ) :
      DementiaSound.Step s (DementiaSound.updateDay s day now).1
  | stop (s : SoundState) : DementiaSound.Step s (DementiaSound.stop s)
  | setVolume (s : SoundState) (v : ℚ) :
      DementiaSound.Step s (DementiaSound.setVolume s v)

/-- States reachable from the constructor by public method calls. -/
def DementiaSound.Reachable (s : SoundState) : Prop :=
  Relation.ReflTransGen DementiaSound.Step DementiaSound.initialState s

/-- The sound state after `init()` followed by `start(1)` issued at audio
time `t0`: three pad voices playing at the day-1 parameters. -/
def soundAfterStart (t0 : ℚ) : SoundState :=
  (DementiaSound.start (DementiaSound.init DementiaSound.initialState) 1 t0).1

/-- The sound state (and no-exception flag) after additionally calling
`updateDay(31)` at audio time `t1`. -/
def soundAfterUpdate (t0 t1 : ℚ) : SoundState × Bool :=
  DementiaSound.updateDay (soundAfterStart t0) 31 t1

/- ------------------------------------------------------------------ -/
/- Claim-side candidate definitions for the displacement-map channels -/
/- ------------------------------------------------------------------ -/

/-- The spatial noise candidate of the claim: a simplex sample of the
scaled `(uv, pseudo-depth)` coordinates plus time (plus the per-channel
decorrelation offset). -/
def spatialCandidate (uvn : ℚ × ℚ) (depth : ℚ) (scale : V3) (t2 : ℚ) (off : V3) : ℚ :=
  ns_simplex (V3.mk uvn.1 uvn.2 depth * scale + V3.mk 0 0 t2 + off)

/-- The colour noise candidate of the claim: a simplex sample of the
blurred working-field colour (scaled by `map_weight`) plus time (plus the
per-channel decorrelation offset). -/
def colorCandidate (blurred : Px) (weight t2 : ℚ) (off : V3) : ℚ :=
  ns_simplex ((V3.mk blurred.r blurred.g blurred.b).mulS weight + V3.mk 0 0 t2 + off)

/- ------------------------------------------------------------------ -/
/- Theorems -/
/- ------------------------------------------------------------------ -/

/-- C1: evaluating the degradation curves at day 1 and day 31 yields
exactly the documented endpoint values for every parameter — visual
`image_blur` 0.1 → 32.0, audio `reverbMix` 0.10 → 0.75, and the two
endpoints of every other parameter of `getParams` and `getSoundParams`. -/
theorem getParams_getSoundParams_endpoints :
    ((ShaderCalendar.getParams 1).image_blur = 0.1 ∧ (ShaderCalendar.getParams 31).image_blur = 32.0) ∧
    ((ShaderCalendar.getParams 1).uv_scale = 0.5 ∧ (ShaderCalendar.getParams 31).uv_scale = 4.0) ∧
    ((ShaderCalendar.getParams 1).depth_scale = 0.2 ∧ (ShaderCalendar.getParams 31).depth_scale = 4.0) ∧
    ((ShaderCalendar.getParams 1).rgb_scale = 0.3 ∧ (ShaderCalendar.getParams 31).rgb_scale = 2.5) ∧
    ((ShaderCalendar.getParams 1).rgb_mix = 0.1 ∧ (ShaderCalendar.getParams 31).rgb_mix = 0.95) ∧
    ((ShaderCalendar.getParams 1).src_weight = 6.0 ∧ (ShaderCalendar.getParams 31).src_weight = 2.5) ∧
    ((ShaderCalendar.getParams 1).hard_level = 0.2 ∧ (ShaderCalendar.getParams 31).hard_level = 2.7) ∧
    ((ShaderCalendar.getParams 1).hard_contrast = 0.98 ∧ (ShaderCalendar.getParams 31).hard_contrast = 0.53) ∧
    ((ShaderCalendar.getParams 1).mask_level = 1.0 ∧ (ShaderCalendar.getParams 31).mask_level = 3.0) ∧
    ((ShaderCalendar.getParams 1).mask_contrast = 0.9 ∧ (ShaderCalendar.getParams 31).mask_contrast = 0.55) ∧
    ((ShaderCalendar.getParams 1).mask_weight = 0.8 ∧ (ShaderCalendar.getParams 31).mask_weight = 0.3) ∧
    ((ShaderCalendar.getParams 1).hard_weight = 0.5 ∧ (ShaderCalendar.getParams 31).hard_weight = 8.0) ∧
    ((ShaderCalendar.getParams 1).soft_weight = 0.3 ∧ (ShaderCalendar.getParams 31).soft_weight = 7.5) ∧
    ((ShaderCalendar.getParams 1).time_scale = 0.005 ∧ (ShaderCalendar.getParams 31).time_scale = 0.1) ∧
    ((ShaderCalendar.getParams 1).map_blur = 2.0 ∧ (ShaderCalendar.getParams 31).map_blur = 22.0) ∧
    ((DementiaSound.getSoundParams 1).filterFrequency = 12000 ∧ (DementiaSound.getSoundParams 31).filterFrequency = 4000) ∧
    ((DementiaSound.getSoundParams 1).filterQ = 0.7 ∧ (DementiaSound.getSoundParams 31).filterQ = 0.7) ∧
    ((DementiaSound.getSoundParams 1).detuneAmount = 0 ∧ (DementiaSound.getSoundParams 31).detuneAmount = 5) ∧
    ((DementiaSound.getSoundParams 1).detuneSpeed = 0.05 ∧ (DementiaSound.getSoundParams 31).detuneSpeed = 0.2) ∧
    ((DementiaSound.getSoundParams 1).reverbMix = 0.10 ∧ (DementiaSound.getSoundParams 31).reverbMix = 0.75) ∧
    ((DementiaSound.getSoundParams 1).reverbDecay = 0.5 ∧ (DementiaSound.getSoundParams 31).reverbDecay = 3.0) ∧
    ((DementiaSound.getSoundParams 1).dryGain = 1.0 ∧ (DementiaSound.getSoundParams 31).dryGain = 0.5) ∧
    ((DementiaSound.getSoundParams 1).melodyGain = 0.3 ∧ (DementiaSound.getSoundParams 31).melodyGain = 0.2) ∧
    ((DementiaSound.getSoundParams 1).vibratoDepth = 0.3 ∧ (DementiaSound.getSoundParams 31).vibratoDepth = 1.0) ∧
    ((DementiaSound.getSoundParams 1).vibratoSpeed = 1.5 ∧ (DementiaSound.getSoundParams 31).vibratoSpeed = 2.5) ∧
    ((DementiaSound.getSoundParams 1).playbackRate = 1.0 ∧ (DementiaSound.getSoundParams 31).playbackRate = 0.8) := by
  norm_num [ShaderCalendar.getParams, DementiaSound.getSoundParams, dayT, easeInQ, easeOutQ, easeMixQ]

/-- Day progress is monotone in the day. -/
theorem dayT_mono {d e : ℚ} (h : d ≤ e) : dayT d ≤ dayT e := by
  unfold dayT; linarith

/-- Day progress is nonnegative from day 1 on. -/
theorem dayT_nonneg {d : ℚ} (h : 1 ≤ d) : 0 ≤ dayT d := by
  unfold dayT; linarith

/-- Day progress is at most 1 up to day 31. -/
theorem dayT_le_one {d : ℚ} (h : d ≤ 31) : dayT d ≤ 1 := by
  unfold dayT; linarith

/-- The cubic ease-in is monotone on the nonnegative axis. -/
theorem easeInQ_mono {a b : ℚ} (h0 : 0 ≤ a) (hab : a ≤ b) : easeInQ a ≤ easeInQ b := by
  unfold easeInQ
  nlinarith [mul_nonneg (sub_nonneg.2 hab) (mul_nonneg h0 h0),
    mul_nonneg (sub_nonneg.2 hab) (mul_nonneg h0 (h0.trans hab)),
    mul_nonneg (sub_nonneg.2 hab) (mul_nonneg (h0.trans hab) (h0.trans hab))]

/-- The quadratic ease-out is monotone up to 1. -/
theorem easeOutQ_mono {a b : ℚ} (hab : a ≤ b) (hb : b ≤ 1) : easeOutQ a ≤ easeOutQ b := by
  unfold easeOutQ
  nlinarith [mul_nonneg (sub_nonneg.2 hab) (by linarith : (0 : ℚ) ≤ 2 - a - b)]

/-- The smoothstep ease is monotone on `[0, 1]`. -/
theorem easeMixQ_mono {a b : ℚ} (h0 : 0 ≤ a) (hab : a ≤ b) (hb : b ≤ 1) :
    easeMixQ a ≤ easeMixQ b := by
  unfold easeMixQ
  have hb0 : 0 ≤ b := h0.trans hab
  nlinarith [mul_nonneg (sub_nonneg.2 hab) (mul_nonneg h0 (by linarith : (0 : ℚ) ≤ 1 - a)),
    mul_nonneg (sub_nonneg.2 hab) (mul_nonneg hb0 (by linarith : (0 : ℚ) ≤ 1 - b)),
    mul_nonneg (sub_nonneg.2 hab)
      (mul_nonneg (by linarith : (0 : ℚ) ≤ a + b) (by linarith : (0 : ℚ) ≤ 2 - a - b))]

/-- C2: every parameter of `getParams` and `getSoundParams` is monotonic
in the day over the integer range 1..31, in the direction implied by its
easing shape — non-decreasing when the day-31 endpoint exceeds the day-1
endpoint, non-increasing otherwise — with no oscillation at any
intermediate day. -/
theorem params_monotone_on_days (d e : ℕ) (h1 : 1 ≤ d) (hde : d ≤ e) (h31 : e ≤ 31) :
    (ShaderCalendar.getParams d).image_blur ≤ (ShaderCalendar.getParams e).image_blur ∧
    (ShaderCalendar.getParams d).uv_scale ≤ (ShaderCalendar.getParams e).uv_scale ∧
    (ShaderCalendar.getParams d).depth_scale ≤ (ShaderCalendar.getParams e).depth_scale ∧
    (ShaderCalendar.getParams d).rgb_scale ≤ (ShaderCalendar.getParams e).rgb_scale ∧
    (ShaderCalendar.getParams d).rgb_mix ≤ (ShaderCalendar.getParams e).rgb_mix ∧
    (ShaderCalendar.getParams e).src_weight ≤ (ShaderCalendar.getParams d).src_weight ∧
    (ShaderCalendar.getParams d).hard_level ≤ (ShaderCalendar.getParams e).hard_level ∧
    (ShaderCalendar.getParams e).hard_contrast ≤ (ShaderCalendar.getParams d).hard_contrast ∧
    (ShaderCalendar.getParams d).mask_level ≤ (ShaderCalendar.getParams e).mask_level ∧
    (ShaderCalendar.getParams e).mask_contrast ≤ (ShaderCalendar.getParams d).mask_contrast ∧
    (ShaderCalendar.getParams e).mask_weight ≤ (ShaderCalendar.getParams d).mask_weight ∧
    (ShaderCalendar.getParams d).hard_weight ≤ (ShaderCalendar.getParams e).hard_weight ∧
    (ShaderCalendar.getParams d).soft_weight ≤ (ShaderCalendar.getParams e).soft_weight ∧
    (ShaderCalendar.getParams d).time_scale ≤ (ShaderCalendar.getParams e).time_scale ∧
    (ShaderCalendar.getParams d).map_blur ≤ (ShaderCalendar.getParams e).map_blur ∧
    (DementiaSound.getSoundParams e).filterFrequency ≤ (DementiaSound.getSoundParams d).filterFrequency ∧
    (DementiaSound.getSoundParams e).filterQ ≤ (DementiaSound.getSoundParams d).filterQ ∧
    (DementiaSound.getSoundParams d).detuneAmount ≤ (DementiaSound.getSoundParams e).detuneAmount ∧
    (DementiaSound.getSoundParams d).detuneSpeed ≤ (DementiaSound.getSoundParams e).detuneSpeed ∧
    (DementiaSound.getSoundParams d).reverbMix ≤ (DementiaSound.getSoundParams e).reverbMix ∧
    (DementiaSound.getSoundParams d).reverbDecay ≤ (DementiaSound.getSoundParams e).reverbDecay ∧
    (DementiaSound.getSoundParams e).dryGain ≤ (DementiaSound.getSoundParams d).dryGain ∧
    (DementiaSound.getSoundParams e).melodyGain ≤ (DementiaSound.getSoundParams d).melodyGain ∧
    (DementiaSound.getSoundParams d).vibratoDepth ≤ (DementiaSound.getSoundParams e).vibratoDepth ∧
    (DementiaSound.getSoundParams d).vibratoSpeed ≤ (DementiaSound.getSoundParams e).vibratoSpeed ∧
    (DementiaSound.getSoundParams e).playbackRate ≤ (DementiaSound.getSoundParams d).playbackRate := by
  have hd1 : (1 : ℚ) ≤ (d : ℚ) := by exact_mod_cast h1
  have hde' : (d : ℚ) ≤ (e : ℚ) := by exact_mod_cast hde
  have he31 : (e : ℚ) ≤ 31 := by exact_mod_cast h31
  have h0 : 0 ≤ dayT d := dayT_nonneg hd1
  have hm : dayT d ≤ dayT e := dayT_mono hde'
  have hle : dayT e ≤ 1 := dayT_le_one he31
  have hIn := easeInQ_mono h0 hm
  have hOut := easeOutQ_mono hm hle
  have hMix := easeMixQ_mono h0 hm hle
  simp only [ShaderCalendar.getParams, DementiaSound.getSoundParams]
  refine ⟨by linarith, by linarith, by linarith, by linarith, by linarith, by linarith,
    by linarith, by linarith, by linarith, by linarith, by linarith, by linarith,
    by linarith, by linarith, by linarith, by linarith, by linarith, by linarith,
    by linarith, by linarith, by linarith, by linarith, by linarith, by linarith,
    by linarith, by linarith⟩

/-- Witness for C2 at the concrete days 2 and 3. -/
theorem params_monotone_on_days_witness :
    (1 ≤ 2 ∧ 2 ≤ 3 ∧ 3 ≤ 31) ∧
    (ShaderCalendar.getParams (2 : ℕ)).image_blur ≤ (ShaderCalendar.getParams (3 : ℕ)).image_blur :=
  ⟨⟨by decide, by decide, by decide⟩,
    (params_monotone_on_days 2 3 (by decide) (by decide) (by decide)).1⟩

/-- C6: the blur kernel with radius `size = 0` returns exactly the center
sample for every direction set, field and pixel position — all 16×3
directional samples coincide with the center sample and the mean over 49
samples is the center value. -/
theorem blur_zero_size_identity (dirs : Fin 16 → ℚ × ℚ) (tex : Tex) (uv res : ℚ × ℚ) :
    blurF 0 dirs tex uv res = tex uv := by
  unfold blurF
  have hs : ∀ d : Fin 16, ∀ i : Fin 3,
      tex (uv.1 + (dirs d).1 * ((0 : ℚ) / res.1) * (((i : ℕ) + 1 : ℚ) / 3),
           uv.2 + (dirs d).2 * ((0 : ℚ) / res.2) * (((i : ℕ) + 1 : ℚ) / 3)) = tex uv := by
    intro d i
    norm_num
  have h2 : (∑ d : Fin 16, ∑ i : Fin 3,
      tex (uv.1 + (dirs d).1 * ((0 : ℚ) / res.1) * (((i : ℕ) + 1 : ℚ) / 3),
           uv.2 + (dirs d).2 * ((0 : ℚ) / res.2) * (((i : ℕ) + 1 : ℚ) / 3)))
      = (48 : ℕ) • tex uv := by
    rw [Finset.sum_congr rfl (fun d _ => Finset.sum_congr rfl (fun i _ => hs d i))]
    simp only [Finset.sum_const, Finset.card_univ, Fintype.card_fin]
    rw [smul_smul]
    norm_num
  rw [h2]
  funext j
  show ((tex uv + (48 : ℕ) • tex uv) j) / 49 = tex uv j
  have h3 : ((48 : ℕ) • tex uv) j = 48 * tex uv j := by
    rw [Pi.smul_apply, nsmul_eq_mul]
    push_cast
    ring
  rw [Pi.add_apply, h3]
  ring

/-- C4: with `hard_weight = soft_weight = 0` the displacement compositor
output pixel is exactly the mask blend
`mix(workingField(uv), sourceField(uv), 1 - sourceMask)` where
`sourceMask` is the un-blurred map's fourth channel at `uv`: both the
quantized hard offset and the smooth soft offset vanish, so there is no
spatial shift. -/
theorem displace_zero_weights_mask_blend (source image map : Tex) (res : ℚ × ℚ)
    (blur_size : ℚ) (dirs : Fin 16 → ℚ × ℚ) (uv : ℚ × ℚ) :
    displacePixel source image map res 0 0 blur_size dirs uv
      = pxMix (image uv) (source uv) (1 - (map uv).a) := by
  unfold displacePixel
  have hfloor : ((⌊(0.5 : ℚ)⌋ : ℚ)) = 0 := by norm_num
  have hmix : ∀ (p : Px) (t : ℚ), pxMix p p t = p := by
    intro p t
    funext j
    unfold pxMix
    ring
  simp only [mul_zero, zero_mul, zero_div, zero_add, add_zero]
  simp only [hfloor, zero_div, add_zero, Prod.mk.eta]
  rw [hmix]

/-- C5: the displacement map's R and G channels each blend two
independent simplex-noise candidates — one sampling the scaled
`(uv, pseudo-depth)` coordinates plus time, one sampling the blurred
working-field colour plus time — with `mix(candidate1, candidate2,
rgb_mix)`, then remap the blend from `[-1, 1]` to `[0, 1]` via
`x*0.5 + 0.5` (channel decorrelation offsets `(0,0,0)/(0,44,444)` for R
and `(0,11,111.1)/(0,55,555.1)` for G, as in the source). -/
theorem mapShader_rg_candidates (powF : ℚ → ℚ → ℚ) (dirs : Fin 16 → ℚ × ℚ)
    (source image : Tex) (time : ℚ) (uv_scale : V3)
    (map_weight src_weight rgb_mix hard_level hard_contrast mask_level mask_contrast
      mask_weight : ℚ) (res : ℚ × ℚ) (blur_size time_scale : ℚ) (uv : ℚ × ℚ) :
    (mapPixel powF dirs source image time uv_scale map_weight src_weight rgb_mix
        hard_level hard_contrast mask_level mask_contrast mask_weight res blur_size
        time_scale uv).r
      = glslMixQ
          (spatialCandidate (uvNorm uv res (2048, 2048)) (luminance (source uv))
            uv_scale (glslMod (time * time_scale) 111111) ⟨0, 0, 0⟩)
          (colorCandidate (blurF blur_size dirs image uv res) map_weight
            (glslMod (time * time_scale) 111111) ⟨0, 44, 444⟩)
          rgb_mix * 0.5 + 0.5 ∧
    (mapPixel powF dirs source image time uv_scale map_weight src_weight rgb_mix
        hard_level hard_contrast mask_level mask_contrast mask_weight res blur_size
        time_scale uv).g
      = glslMixQ
          (spatialCandidate (uvNorm uv res (2048, 2048)) (luminance (source uv))
            uv_scale (glslMod (time * time_scale) 111111) ⟨0, 11, 111.1⟩)
          (colorCandidate (blurF blur_size dirs image uv res) map_weight
            (glslMod (time * time_scale) 111111) ⟨0, 55, 555.1⟩)
          rgb_mix * 0.5 + 0.5 := by
  constructor <;> rfl

/-- C3: after `loadImage` completes (for any prior state, image and day)
and before any render, the working framebuffer equals the source
framebuffer pixel-for-pixel and the time accumulator is 0 —
`initialize()` fully resets the feedback accumulation. -/
theorem loadImage_resets_feedback (st : ShaderState) (img : GImage) (day : ℚ) :
    (ShaderCalendar.loadImage st img day).fboImage
        = (ShaderCalendar.loadImage st img day).fboSource ∧
    (ShaderCalendar.loadImage st img day).time = 0 := by
  have hinit : ∀ s : ShaderState,
      (ShaderCalendar.initializeState s).fboImage = (ShaderCalendar.initializeState s).fboSource ∧
      (ShaderCalendar.initializeState s).time = 0 := by
    intro s
    exact ⟨funext fun uv => rfl, rfl⟩
  unfold ShaderCalendar.loadImage
  dsimp only
  split_ifs
  · exact hinit _
  · exact hinit _

/-- C9: `setDay(day)` assigns `currentDay` and leaves every other piece
of pipeline state — the working and source framebuffers, the map and
displace framebuffers, the time accumulator, the textures, sizes and
seed — unchanged; the feedback accumulator is never reset by `setDay`. -/
theorem setDay_only_currentDay (st : ShaderState) (day : ℚ) :
    (ShaderCalendar.setDay st day).currentDay = day ∧
    (ShaderCalendar.setDay st day).fboImage = st.fboImage ∧
    (ShaderCalendar.setDay st day).fboSource = st.fboSource ∧
    (ShaderCalendar.setDay st day).fboMap = st.fboMap ∧
    (ShaderCalendar.setDay st day).fboDisplace = st.fboDisplace ∧
    (ShaderCalendar.setDay st day).time = st.time ∧
    (ShaderCalendar.setDay st day).sourceTexData = st.sourceTexData ∧
    (ShaderCalendar.setDay st day).lastImageSrc = st.lastImageSrc ∧
    (ShaderCalendar.setDay st day).currentImage = st.currentImage ∧
    (ShaderCalendar.setDay st day).width = st.width ∧
    (ShaderCalendar.setDay st day).height = st.height ∧
    (ShaderCalendar.setDay st day).seed = st.seed :=
  ⟨rfl, rfl, rfl, rfl, rfl, rfl, rfl, rfl, rfl, rfl, rfl, rfl⟩

/-- After `start(1)` then `updateDay(31)`, the first pad voice's filter
frequency is the ramp from 12000 at `t1` to 4000 at `t1 + 1`. -/
theorem first_voice_filter_ramp (t0 t1 : ℚ) :
    (oscAt (soundAfterUpdate t0 t1).1.oscillators 0).filterFreq
      = { base := 12000, ev := some ⟨t1, 12000, t1 + 1, 4000⟩ } := by
  simp [soundAfterUpdate, soundAfterStart, DementiaSound.updateDay, DementiaSound.start,
    DementiaSound.startFresh, DementiaSound.init, DementiaSound.initialState,
    DementiaSound.updateDayList, DementiaSound.updateDayStep, DementiaSound.getSoundParams,
    oscAt, AParam.linearRampTo, AParam.valueAt, AParam.const, dayT, easeOutQ, easeInQ, easeMixQ]
  norm_num

/-- C7 (amended): after `start(1)`, `updateDay(31)` ramps the first pad
voice's lowpass filter frequency linearly from its day-1 value 12000 Hz
to the day-31 value 4000 Hz over the 1-second transition window, so at
any instant strictly inside the window that voice's parameter lies
strictly between 4000 and 12000; the remaining voices are left at
12000 Hz because the volume recomputation raises a `TypeError` before
their ramps are scheduled. -/
theorem updateDay_ramps_first_voice (t0 t1 τ : ℚ) (h0 : 0 < τ) (h1 : τ < 1) :
    (4000 < (oscAt (soundAfterUpdate t0 t1).1.oscillators 0).filterFreq.valueAt (t1 + τ) ∧
     (oscAt (soundAfterUpdate t0 t1).1.oscillators 0).filterFreq.valueAt (t1 + τ) < 12000) ∧
    (oscAt (soundAfterUpdate t0 t1).1.oscillators 1).filterFreq.valueAt (t1 + τ) = 12000 ∧
    (oscAt (soundAfterUpdate t0 t1).1.oscillators 2).filterFreq.valueAt (t1 + τ) = 12000 := by
  refine ⟨?_, ?_, ?_⟩
  · rw [first_voice_filter_ramp t0 t1]
    unfold AParam.valueAt
    dsimp only
    rw [if_neg (by linarith), if_pos (by linarith)]
    have hd : t1 + 1 - t1 = 1 := by ring
    rw [hd, div_one]
    constructor <;> nlinarith
  · simp [soundAfterUpdate, soundAfterStart, DementiaSound.updateDay, DementiaSound.start,
      DementiaSound.startFresh, DementiaSound.init, DementiaSound.initialState,
      DementiaSound.updateDayList, DementiaSound.updateDayStep, DementiaSound.getSoundParams,
      oscAt, AParam.linearRampTo, AParam.valueAt, AParam.const, dayT, easeOutQ, easeInQ, easeMixQ]
  · simp [soundAfterUpdate, soundAfterStart, DementiaSound.updateDay, DementiaSound.start,
      DementiaSound.startFresh, DementiaSound.init, DementiaSound.initialState,
      DementiaSound.updateDayList, DementiaSound.updateDayStep, DementiaSound.getSoundParams,
      oscAt, AParam.linearRampTo, AParam.valueAt, AParam.const, dayT, easeOutQ, easeInQ, easeMixQ]

/-- Witness for C7 (amended) at `t0 = 0`, `t1 = 0`, `τ = 1/2`. -/
theorem updateDay_ramps_first_voice_witness :
    (0 : ℚ) < 1 / 2 ∧ ((1 : ℚ) / 2 < 1) ∧
    (4000 < (oscAt (soundAfterUpdate 0 0).1.oscillators 0).filterFreq.valueAt (0 + 1 / 2) ∧
     (oscAt (soundAfterUpdate 0 0).1.oscillators 0).filterFreq.valueAt (0 + 1 / 2) < 12000) :=
  ⟨by norm_num, by norm_num,
    (updateDay_ramps_first_voice 0 0 (1 / 2) (by norm_num) (by norm_num)).1⟩

/-- Counterexample to C7 as stated: at the concrete trace `start(1)` at
time 0 then `updateDay(31)` at time 10, the second pad voice's filter
frequency at the mid-window instant `10 + 1/2` is still exactly 12000 —
not strictly between 12000 and 4000 — because the `TypeError` aborts the
per-voice loop after the first voice. -/
theorem updateDay_not_all_voices_ramped :
    (oscAt (soundAfterUpdate 0 10).1.oscillators 1).filterFreq.valueAt (10 + 1 / 2) = 12000 ∧
    ¬((12000 : ℚ) < 12000) := by
  constructor
  · simp [soundAfterUpdate, soundAfterStart, DementiaSound.updateDay, DementiaSound.start,
      DementiaSound.startFresh, DementiaSound.init, DementiaSound.initialState,
      DementiaSound.updateDayList, DementiaSound.updateDayStep, DementiaSound.getSoundParams,
      oscAt, AParam.linearRampTo, AParam.valueAt, AParam.const, dayT, easeOutQ, easeInQ, easeMixQ]
  · norm_num

/-- `init` never touches `baseFrequencies`. -/
theorem init_baseFrequencies (s : SoundState) :
    (DementiaSound.init s).baseFrequencies = s.baseFrequencies := by
  unfold DementiaSound.init
  split_ifs <;> rfl

/-- `startFresh` never touches `baseFrequencies`. -/
theorem startFresh_baseFrequencies (s : SoundState) (day now : ℚ) :
    (DementiaSound.startFresh s day now).baseFrequencies = s.baseFrequencies := by
  unfold DementiaSound.startFresh
  split_ifs <;> rfl

/-- `updateDay` never touches `baseFrequencies`. -/
theorem updateDay_baseFrequencies (s : SoundState) (day now : ℚ) :
    (DementiaSound.updateDay s day now).1.baseFrequencies = s.baseFrequencies := by
  unfold DementiaSound.updateDay
  dsimp only
  split_ifs <;> rfl

/-- `start` never touches `baseFrequencies`. -/
theorem start_baseFrequencies (s : SoundState) (day now : ℚ) :
    (DementiaSound.start s day now).1.baseFrequencies = s.baseFrequencies := by
  unfold DementiaSound.start
  split_ifs
  · exact updateDay_baseFrequencies s day now
  · exact startFresh_baseFrequencies s day now

/-- `stop` never touches `baseFrequencies`. -/
theorem stop_baseFrequencies (s : SoundState) :
    (DementiaSound.stop s).baseFrequencies = s.baseFrequencies := by
  unfold DementiaSound.stop
  split_ifs <;> rfl

/-- `setVolume` never touches `baseFrequencies`. -/
theorem setVolume_baseFrequencies (s : SoundState) (v : ℚ) :
    (DementiaSound.setVolume s v).baseFrequencies = s.baseFrequencies := by
  unfold DementiaSound.setVolume
  cases s.masterGain <;> rfl

/-- C8: `updateDay` dereferences `this.baseFrequencies`, which no
constructor or method of `DementiaSound` ever assigns — in every state
reachable by public method calls it is still `undefined` — so the
day-transition volume recomputation during playback raises a `TypeError`
(`updateDay(31)` after `start(1)` returns the exception flag), and
`updateDay` does not complete its scheduled per-voice ramp updates: the
first voice's gain ramp is never rescheduled and the second voice's
filter-frequency ramp is never scheduled at all. -/
theorem updateDay_baseFrequencies_bug (t0 t1 : ℚ) :
    (∀ s, DementiaSound.Reachable s → s.baseFrequencies = none) ∧
    (soundAfterUpdate t0 t1).2 = false ∧
    (oscAt (soundAfterUpdate t0 t1).1.oscillators 0).gain
      = (oscAt (soundAfterStart t0).oscillators 0).gain ∧
    (oscAt (soundAfterUpdate t0 t1).1.oscillators 1).filterFreq.ev = none := by
  refine ⟨?_, ?_, ?_, ?_⟩
  · intro s hs
    induction hs with
    | refl => rfl
    | tail _hab hbc ih =>
      cases hbc with
      | init => rw [init_baseFrequencies]; exact ih
      | start day now => rw [start_baseFrequencies]; exact ih
      | updateDay day now => rw [updateDay_baseFrequencies]; exact ih
      | stop => rw [stop_baseFrequencies]; exact ih
      | setVolume v => rw [setVolume_baseFrequencies]; exact ih
  · simp [soundAfterUpdate, soundAfterStart, DementiaSound.updateDay, DementiaSound.start,
      DementiaSound.startFresh, DementiaSound.init, DementiaSound.initialState,
      DementiaSound.updateDayList, DementiaSound.updateDayStep]
  · simp [soundAfterUpdate, soundAfterStart, DementiaSound.updateDay, DementiaSound.start,
      DementiaSound.startFresh, DementiaSound.init, DementiaSound.initialState,
      DementiaSound.updateDayList, DementiaSound.updateDayStep, DementiaSound.getSoundParams,
      oscAt, AParam.linearRampTo, AParam.valueAt, AParam.const]
  · simp [soundAfterUpdate, soundAfterStart, DementiaSound.updateDay, DementiaSound.start,
      DementiaSound.startFresh, DementiaSound.init, DementiaSound.initialState,
      DementiaSound.updateDayList, DementiaSound.updateDayStep, DementiaSound.getSoundParams,
      oscAt, AParam.linearRampTo, AParam.valueAt, AParam.const]

/-- Witness for C8: the constructor state is reachable and its
`baseFrequencies` is `undefined`. -/
theorem updateDay_baseFrequencies_bug_witness :
    DementiaSound.Reachable DementiaSound.initialState ∧
    DementiaSound.initialState.baseFrequencies = none :=
  ⟨Relation.ReflTransGen.refl,
    (updateDay_baseFrequencies_bug 0 0).1 DementiaSound.initialState
      Relation.ReflTransGen.refl⟩

/-- The two clamp orders agree: `max 0 (min 1 v) = min 1 (max 0 v)`. -/
theorem clamp_comm (v : ℚ) : max 0 (min 1 v) = min 1 (max 0 v) := by
  rcases le_total v 0 with h | h <;> rcases le_total v 1 with h' | h' <;>
    simp [max_def, min_def] <;> split_ifs <;> linarith

/-- C10: on an initialized engine, `setVolume(v)` sets the master gain to
`min(1, max(0, v))` for every rational input — so the stored gain always
lies in `[0, 1]` — and leaves the rest of the state unchanged; on an
uninitialized engine the call changes nothing at all. -/
theorem setVolume_clamps (st : SoundState) (v : ℚ) :
    (st.masterGain = none → DementiaSound.setVolume st v = st) ∧
    (∀ g, st.masterGain = some g →
      (DementiaSound.setVolume st v).masterGain = some (min 1 (max 0 v)) ∧
      (0 : ℚ) ≤ min 1 (max 0 v) ∧ min 1 (max 0 v) ≤ 1 ∧
      (DementiaSound.setVolume st v).isPlaying = st.isPlaying ∧
      (DementiaSound.setVolume st v).currentDay = st.currentDay ∧
      (DementiaSound.setVolume st v).oscillators = st.oscillators ∧
      (DementiaSound.setVolume st v).audioCtxInit = st.audioCtxInit) := by
  constructor
  · intro h
    unfold DementiaSound.setVolume
    rw [h]
  · intro g hg
    have hmg : (DementiaSound.setVolume st v).masterGain = some (max 0 (min 1 v)) := by
      unfold DementiaSound.setVolume
      rw [hg]
    have hrest : (DementiaSound.setVolume st v).isPlaying = st.isPlaying ∧
        (DementiaSound.setVolume st v).currentDay = st.currentDay ∧
        (DementiaSound.setVolume st v).oscillators = st.oscillators ∧
        (DementiaSound.setVolume st v).audioCtxInit = st.audioCtxInit := by
      unfold DementiaSound.setVolume
      rw [hg]
      exact ⟨rfl, rfl, rfl, rfl⟩
    refine ⟨by rw [hmg, clamp_comm], ?_, ?_, hrest.1, hrest.2.1, hrest.2.2.1, hrest.2.2.2⟩
    · exact le_min (by norm_num) (le_max_left 0 v)
    · exact min_le_left 1 (max 0 v)
  
/-- Witness for C10: after `init` the master gain is `0.2`; `setVolume 2`
clamps it to `min 1 (max 0 2)`. -/
theorem setVolume_clamps_witness :
    (DementiaSound.init DementiaSound.initialState).masterGain = some 0.2 ∧
    (DementiaSound.setVolume (DementiaSound.init DementiaSound.initialState) 2).masterGain
      = some (min 1 (max 0 2)) := by
  have h : (DementiaSound.init DementiaSound.initialState).masterGain = some 0.2 := by
    simp [DementiaSound.init, DementiaSound.initialState]
  exact ⟨h, ((setVolume_clamps (DementiaSound.init DementiaSound.initialState) 2).2 0.2 h).1⟩
